import Mathlib

/-! Map.jsx: the distance utility and the view state of `Locations`

A shallow embedding of `src/Map.jsx`:

* `calculateDistance` (lines 12-20), written over any field `α` together with the
  functions of the JavaScript `Math` object it calls (`JSMath α`);
* the four `useState` cells of `Locations` (lines 70-73) as the record `ViewState`, and the
  three places of the file that write them: `handleMarkerClick` (94-101),
  `handleCloseDetails` (103-106) and the success callback handed to
  `navigator.geolocation.getCurrentPosition` (79-84).

The functions of the JavaScript runtime (`Math.PI`, `Math.sin`, `Math.cos`, `Math.sqrt`,
`Math.atan2`, `Number.prototype.toFixed`) are not code of the file; they are fields of the
runtime record the embedding takes as an argument.  `realMath` reads the `Math` part over
the real numbers.
-/

namespace MapJsx

/-! ## The JavaScript runtime the file calls into -/

/-- The members of the JavaScript `Math` object used by `calculateDistance`. -/
structure JSMath (α : Type) where
  /-- The constant `Math.PI`. -/
  PI : α
  /-- The function `Math.sin`. -/
  sin : α → α
  /-- The function `Math.cos`. -/
  cos : α → α
  /-- The function `Math.sqrt`. -/
  sqrt : α → α
  /-- The function `Math.atan2`, as `atan2 y x` for `Math.atan2(y, x)`. -/
  atan2 : α → α → α

/-- The runtime of the component: `Math`, and `Number.prototype.toFixed`
(`x.toFixed(digits)` is `toFixed x digits`, a string). -/
structure JSRuntime (α : Type) extends JSMath α where
  /-- The method `Number.prototype.toFixed`. -/
  toFixed : α → Nat → String

/-! ## `calculateDistance` (lines 11-20) -/

section Distance

variable {α : Type} [Field α]

/-- Line 13: `const toRadians = (degrees) => (degrees * Math.PI) / 180;` -/
def toRadians (M : JSMath α) (degrees : α) : α :=
  (degrees * M.PI) / 180

/-- Lines 15-17: the local constant `a` of `calculateDistance`,
`Math.sin(dLat / 2) ** 2 + Math.cos(toRadians(lat1)) * Math.cos(toRadians(lat2)) * Math.sin(dLon / 2) ** 2`. -/
def calculateDistance.a (M : JSMath α) (lat1 lon1 lat2 lon2 : α) : α :=
  let dLat := toRadians M (lat2 - lat1)
  let dLon := toRadians M (lon2 - lon1)
  M.sin (dLat / 2) ^ 2
    + M.cos (toRadians M lat1) * M.cos (toRadians M lat2) * M.sin (dLon / 2) ^ 2

/-- Lines 12-20: `calculateDistance(lat1, lon1, lat2, lon2)`. -/
def calculateDistance (M : JSMath α) (lat1 lon1 lat2 lon2 : α) : α :=
  let R : α := 6371
  let a := calculateDistance.a M lat1 lon1 lat2 lon2
  let c := 2 * M.atan2 (M.sqrt a) (M.sqrt (1 - a))
  R * c

end Distance

/-! ## The view state of `Locations` (lines 48-106) -/

/-- A `{ lat, lng }` object. -/
structure Position (α : Type) where
  lat : α
  lng : α

/-- An entry of the `locations` array (lines 49-68). -/
structure Location (α : Type) where
  position : Position α
  name : String
  image : String
  icon : String

/-- The `coords` of the `position` the geolocation success callback receives. -/
structure Coords (α : Type) where
  latitude : α
  longitude : α

/-- The four `useState` cells (lines 70-73); `none` is JavaScript `null`. -/
structure ViewState (α : Type) where
  selectedLocation : Option (Location α)
  currentLocation : Option (Position α)
  distance : Option String
  isDetailsOpen : Bool

/-- The initial values handed to `useState`: `null`, `null`, `null`, `false`. -/
def initialState {α : Type} : ViewState α :=
  { selectedLocation := none, currentLocation := none, distance := none, isDetailsOpen := false }

section Handlers

variable {α : Type} [Field α]

/-- Lines 50-55: the first entry of the `locations` array. -/
def riyadh : Location α :=
  { position := { lat := 24.7136, lng := 46.6753 }
    name := "Riyadh"
    image := "https://bit.ly/3Bb1EKH"
    icon := "https://cdn-icons-png.flaticon.com/512/684/684908.png" }

/-- Lines 56-61: the second entry of the `locations` array. -/
def location2 : Location α :=
  { position := { lat := 24.7265, lng := 46.708 }
    name := "Location 2"
    image := "https://bit.ly/3Bb1EKH"
    icon := "https://cdn-icons-png.flaticon.com/512/847/847969.png" }

/-- Lines 62-67: the third entry of the `locations` array. -/
def location3 : Location α :=
  { position := { lat := 24.7, lng := 46.65 }
    name := "Location 3fa is a good location"
    image := "https://bit.ly/3Bb1EKH"
    icon := "https://cdn-icons-png.flaticon.com/512/3253/3253749.png" }

/-- Lines 49-68: the `locations` array. -/
def locations : List (Location α) :=
  [riyadh, location2, location3]

/-- Lines 94-101: `handleMarkerClick(location)`.  `setSelectedLocation(location)`,
`setIsDetailsOpen(true)`, and, only when `currentLocation` is not `null`,
`setDistance(dist.toFixed(2))`. -/
def handleMarkerClick (M : JSRuntime α) (s : ViewState α) (location : Location α) :
    ViewState α :=
  let s1 := { s with selectedLocation := some location, isDetailsOpen := true }
  match s.currentLocation with
  | some currentLocation =>
      let dist := calculateDistance M.toJSMath currentLocation.lat currentLocation.lng
        location.position.lat location.position.lng
      { s1 with distance := some (M.toFixed dist 2) }
  | none => s1

/-- Lines 103-106: `handleCloseDetails()`: `setSelectedLocation(null)`,
`setIsDetailsOpen(false)`. -/
def handleCloseDetails (s : ViewState α) : ViewState α :=
  { s with selectedLocation := none, isDetailsOpen := false }

/-- Lines 79-84: the success callback of `getCurrentPosition`:
`setCurrentLocation({ lat: position.coords.latitude, lng: position.coords.longitude })`. -/
def geolocationSuccess (s : ViewState α) (coords : Coords α) : ViewState α :=
  { s with currentLocation := some { lat := coords.latitude, lng := coords.longitude } }

/-- The events that write the view state. -/
inductive Action (α : Type) where
  /-- a click on a marker or a card: `handleMarkerClick(location)` -/
  | markerClick (location : Location α)
  /-- a click on the close icon: `handleCloseDetails()` -/
  | closeDetails
  /-- the geolocation provider answers with a position -/
  | positionReceived (coords : Coords α)

/-- One event applied to the view state. -/
def step (M : JSRuntime α) (s : ViewState α) : Action α → ViewState α
  | .markerClick location => handleMarkerClick M s location
  | .closeDetails => handleCloseDetails s
  | .positionReceived coords => geolocationSuccess s coords

/-- The view state after a sequence of events, oldest first, from `s`. -/
def runFrom (M : JSRuntime α) (s : ViewState α) (actions : List (Action α)) : ViewState α :=
  actions.foldl (step M) s

/-- The view state after a sequence of events, oldest first, from the initial state:
the reachable view states are the values of `run`. -/
def run (M : JSRuntime α) (actions : List (Action α)) : ViewState α :=
  runFrom M initialState actions

end Handlers

/-! ## The runtime read over the real numbers -/

/-- The function `Math.atan2(y, x)` over the reals: the angle in `(-π, π]` of the point `(x, y)`,
and `0` at the origin. -/
noncomputable def realAtan2 (y x : ℝ) : ℝ :=
  if 0 < x then Real.arctan (y / x)
  else if x < 0 then
    if 0 ≤ y then Real.arctan (y / x) + Real.pi else Real.arctan (y / x) - Real.pi
  else if 0 < y then Real.pi / 2
  else if y < 0 then -(Real.pi / 2)
  else 0

/-- The `Math` object read over the real numbers: exact values, no rounding.  It is the
reading under which the identities of `calculateDistance` over the reals are stated; it says
nothing on what IEEE doubles round to.  `Real.sqrt` is `0` on a negative number, where
`Math.sqrt` gives `NaN`: over the reals `calculateDistance` applies it to non-negative numbers
only (`a_mem_unit`), with no margin at antipodal points (`a_antipodal`). -/
noncomputable def realMath : JSMath ℝ where
  PI := Real.pi
  sin := Real.sin
  cos := Real.cos
  sqrt := Real.sqrt
  atan2 := realAtan2

/-- The method `Number.prototype.toFixed` over the reals, by the steps of ECMAScript: the sign, then the
decimal digits of the integer `n` nearest to `|x| * 10 ^ fractionDigits` (the larger one on a
tie), padded with zeros to more than `fractionDigits` digits, with a point before the last
`fractionDigits` of them.  (ECMAScript hands magnitudes of `10 ^ 21` and more to
`Number::toString`, which has no reading over the reals; they are written positionally here
as well.) -/
noncomputable def realToFixed (x : ℝ) (fractionDigits : ℕ) : String :=
  let s := if x < 0 then "-" else ""
  let n : ℕ := ⌊|x| * 10 ^ fractionDigits + 1 / 2⌋₊
  let m := Nat.repr n
  let m := if m.length ≤ fractionDigits then
      String.replicate (fractionDigits + 1 - m.length) '0' ++ m else m
  let k := m.length
  let m := if fractionDigits = 0 then m
    else m.take (k - fractionDigits) ++ "." ++ m.drop (k - fractionDigits)
  s ++ m

/-- The runtime read over the real numbers. -/
noncomputable def realRuntime : JSRuntime ℝ where
  toJSMath := realMath
  toFixed := realToFixed

/-- What every handler keeps true: a stored distance comes with a stored current location,
and the details flag is set exactly when a location is selected. -/
def Inv {α : Type} (s : ViewState α) : Prop :=
  (s.distance.isSome = true → s.currentLocation.isSome = true) ∧
    s.isDetailsOpen = s.selectedLocation.isSome

/-! ## The view state: what the three handlers keep true -/

section StateLemmas

variable {α : Type}

theorem inv_initialState : Inv (initialState : ViewState α) := by
  constructor
  · intro h; cases h
  · rfl

theorem inv_handleMarkerClick [Field α] (M : JSRuntime α) (s : ViewState α) (location : Location α)
    (h : Inv s) : Inv (handleMarkerClick M s location) := by
  obtain ⟨hd, _⟩ := h
  unfold handleMarkerClick
  cases hc : s.currentLocation with
  | none =>
      refine ⟨fun hsome => ?_, rfl⟩
      have := hd hsome
      rw [hc] at this
      cases this
  | some cur => exact ⟨fun _ => by simp [hc], rfl⟩

theorem inv_handleCloseDetails [Field α] (s : ViewState α) (h : Inv s) :
    Inv (handleCloseDetails s) :=
  ⟨h.1, rfl⟩

theorem inv_geolocationSuccess [Field α] (s : ViewState α) (coords : Coords α) (_h : Inv s) :
    Inv (geolocationSuccess s coords) :=
  ⟨fun _ => rfl, _h.2⟩

theorem inv_step [Field α] (M : JSRuntime α) (s : ViewState α) (a : Action α) (h : Inv s) :
    Inv (step M s a) := by
  cases a with
  | markerClick location => exact inv_handleMarkerClick M s location h
  | closeDetails => exact inv_handleCloseDetails s h
  | positionReceived coords => exact inv_geolocationSuccess s coords h

theorem inv_runFrom [Field α] (M : JSRuntime α) (actions : List (Action α)) :
    ∀ s : ViewState α, Inv s → Inv (runFrom M s actions) := by
  induction actions with
  | nil => intro s h; exact h
  | cons a rest ih => intro s h; exact ih (step M s a) (inv_step M s a h)

theorem inv_run [Field α] (M : JSRuntime α) (actions : List (Action α)) : Inv (run M actions) :=
  inv_runFrom M actions initialState inv_initialState

end StateLemmas

/-! ## `calculateDistance` over the real numbers -/

section RealDistance

open Real

/-- The value of `Math.atan2(y, x)` on the quarter of the unit circle with `0 ≤ x`, `0 ≤ y`: the angle lies
in `[0, π/2]` and has cosine `x` and sine `y`. -/
theorem realAtan2_unit {x y : ℝ} (hx : 0 ≤ x) (hy : 0 ≤ y) (h : x ^ 2 + y ^ 2 = 1) :
    0 ≤ realAtan2 y x ∧ realAtan2 y x ≤ π / 2 ∧
      cos (realAtan2 y x) = x ∧ sin (realAtan2 y x) = y := by
  rcases hx.lt_or_eq with hpos | hzero
  · have hval : realAtan2 y x = arctan (y / x) := by simp [realAtan2, hpos]
    have hroot : √(1 + (y / x) ^ 2) = 1 / x := by
      have h1 : 1 + (y / x) ^ 2 = (1 / x) ^ 2 := by
        field_simp
        linarith
      rw [h1]
      exact Real.sqrt_sq (by positivity)
    rw [hval]
    refine ⟨?_, (arctan_lt_pi_div_two _).le, ?_, ?_⟩
    · rw [← arctan_zero]
      exact arctan_strictMono.monotone (div_nonneg hy hx)
    · rw [cos_arctan, hroot]
      field_simp
    · rw [sin_arctan, hroot]
      field_simp
  · subst hzero
    have hy1 : y = 1 := by
      have h2 : y ^ 2 = 1 := by simpa using h
      nlinarith [sq_nonneg (y - 1), sq_nonneg (y + 1)]
    subst hy1
    have hval : realAtan2 1 0 = π / 2 := by simp [realAtan2]
    rw [hval]
    exact ⟨by positivity, le_refl _, cos_pi_div_two, sin_pi_div_two⟩

/-- The constant `a` over the reals, with the conversions to radians written out. -/
theorem a_realMath (lat1 lon1 lat2 lon2 : ℝ) :
    calculateDistance.a realMath lat1 lon1 lat2 lon2 =
      sin (((lat2 - lat1) * π / 180) / 2) ^ 2 +
        cos (lat1 * π / 180) * cos (lat2 * π / 180) *
          sin (((lon2 - lon1) * π / 180) / 2) ^ 2 := rfl

/-- The half-angle formula `sin² (x / 2) = (1 - cos x) / 2`. -/
theorem sin_half_sq (x : ℝ) : sin (x / 2) ^ 2 = (1 - cos x) / 2 := by
  have h := cos_sq' (x / 2)
  have h2 := cos_sq (x / 2)
  rw [show 2 * (x / 2) = x by ring] at h2
  linarith

/-- The haversine identity: `1 - 2 a` is the cosine of the central angle. -/
theorem one_sub_two_a (lat1 lon1 lat2 lon2 : ℝ) :
    1 - 2 * calculateDistance.a realMath lat1 lon1 lat2 lon2 =
      sin (lat1 * π / 180) * sin (lat2 * π / 180) +
        cos (lat1 * π / 180) * cos (lat2 * π / 180) * cos ((lon2 - lon1) * π / 180) := by
  rw [a_realMath, sin_half_sq, sin_half_sq]
  have hsub : (lat2 - lat1) * π / 180 = lat2 * π / 180 - lat1 * π / 180 := by ring
  rw [hsub, cos_sub]
  ring

/-- The constant `a` lies in `[0, 1]` for all real arguments. -/
theorem a_mem_unit (lat1 lon1 lat2 lon2 : ℝ) :
    0 ≤ calculateDistance.a realMath lat1 lon1 lat2 lon2 ∧
      calculateDistance.a realMath lat1 lon1 lat2 lon2 ≤ 1 := by
  set u := lat1 * π / 180 with hu
  set v := lat2 * π / 180 with hv
  set t := sin (((lon2 - lon1) * π / 180) / 2) ^ 2 with ht
  have ht0 : 0 ≤ t := sq_nonneg _
  have ht1 : t ≤ 1 := sin_sq_le_one _
  have hform : calculateDistance.a realMath lat1 lon1 lat2 lon2 =
      (1 - t) * ((1 - cos (v - u)) / 2) + t * ((1 + cos (u + v)) / 2) := by
    rw [a_realMath, sin_half_sq]
    have hsub : (lat2 - lat1) * π / 180 = v - u := by rw [hu, hv]; ring
    rw [hsub, ← ht, ← hu, ← hv, cos_sub, cos_add]
    ring
  have hA0 : 0 ≤ (1 - cos (v - u)) / 2 := by linarith [cos_le_one (v - u)]
  have hA1 : (1 - cos (v - u)) / 2 ≤ 1 := by linarith [neg_one_le_cos (v - u)]
  have hB0 : 0 ≤ (1 + cos (u + v)) / 2 := by linarith [neg_one_le_cos (u + v)]
  have hB1 : (1 + cos (u + v)) / 2 ≤ 1 := by linarith [cos_le_one (u + v)]
  rw [hform]
  constructor
  · exact add_nonneg (mul_nonneg (by linarith) hA0) (mul_nonneg ht0 hB0)
  · nlinarith [mul_le_mul_of_nonneg_left hA1 (show 0 ≤ 1 - t by linarith),
      mul_le_mul_of_nonneg_left hB1 ht0]

/-- At antipodal points the constant `a` is exactly `1` over the reals, so `1 - a` is exactly
`0`: the argument of the second `Math.sqrt` has no margin there, and `calculateDistance` does
not clamp `a` before taking `1 - a`. -/
theorem a_antipodal (lat lon : ℝ) :
    calculateDistance.a realMath lat lon (-lat) (lon + 180) = 1 := by
  rw [a_realMath]
  have h1 : ((-lat - lat) * π / 180) / 2 = -(lat * π / 180) := by ring
  have h2 : ((lon + 180 - lon) * π / 180) / 2 = π / 2 := by ring
  have h3 : -lat * π / 180 = -(lat * π / 180) := by ring
  rw [h1, h2, h3, sin_neg, cos_neg, sin_pi_div_two]
  have := sin_sq_add_cos_sq (lat * π / 180)
  nlinarith [this]

/-- The angle `Math.atan2(Math.sqrt(a), Math.sqrt(1 - a))` of `calculateDistance`: it lies in
`[0, π/2]` and its cosine is `√(1 - a)`. -/
theorem angle_spec (lat1 lon1 lat2 lon2 : ℝ) :
    0 ≤ realAtan2 (√(calculateDistance.a realMath lat1 lon1 lat2 lon2))
        (√(1 - calculateDistance.a realMath lat1 lon1 lat2 lon2)) ∧
      realAtan2 (√(calculateDistance.a realMath lat1 lon1 lat2 lon2))
        (√(1 - calculateDistance.a realMath lat1 lon1 lat2 lon2)) ≤ π / 2 ∧
      cos (realAtan2 (√(calculateDistance.a realMath lat1 lon1 lat2 lon2))
        (√(1 - calculateDistance.a realMath lat1 lon1 lat2 lon2))) =
        √(1 - calculateDistance.a realMath lat1 lon1 lat2 lon2) := by
  obtain ⟨h0, h1⟩ := a_mem_unit lat1 lon1 lat2 lon2
  have hsum : √(1 - calculateDistance.a realMath lat1 lon1 lat2 lon2) ^ 2 +
      √(calculateDistance.a realMath lat1 lon1 lat2 lon2) ^ 2 = 1 := by
    rw [Real.sq_sqrt (by linarith), Real.sq_sqrt h0]
    ring
  obtain ⟨ha, hb, hc, _⟩ := realAtan2_unit (Real.sqrt_nonneg _) (Real.sqrt_nonneg _) hsum
  exact ⟨ha, hb, hc⟩

/-- The body of `calculateDistance` over the reals. -/
theorem calculateDistance_realMath (lat1 lon1 lat2 lon2 : ℝ) :
    calculateDistance realMath lat1 lon1 lat2 lon2 =
      6371 * (2 * realAtan2 (√(calculateDistance.a realMath lat1 lon1 lat2 lon2))
        (√(1 - calculateDistance.a realMath lat1 lon1 lat2 lon2))) := rfl

end RealDistance

/-! ## The distance utility: the claims -/

section DistanceClaims

open Real

/-- C1: over the real numbers `calculateDistance(lat1, lon1, lat2, lon2)`, that is
`2 * 6371 * atan2(√a, √(1 - a))` with
`a = sin²(dLat/2) + cos φ1 * cos φ2 * sin²(dLon/2)`, is the great-circle distance on a
sphere of radius 6371: `6371 * arccos (sin φ1 * sin φ2 + cos φ1 * cos φ2 * cos dLon)`, where
`φi = lati * π / 180` and `dLon = (lon2 - lon1) * π / 180`. -/
theorem calculateDistance_eq_great_circle (lat1 lon1 lat2 lon2 : ℝ) :
    calculateDistance realMath lat1 lon1 lat2 lon2 =
        2 * 6371 * realAtan2
          (√(sin (((lat2 - lat1) * π / 180) / 2) ^ 2 +
            cos (lat1 * π / 180) * cos (lat2 * π / 180) *
              sin (((lon2 - lon1) * π / 180) / 2) ^ 2))
          (√(1 - (sin (((lat2 - lat1) * π / 180) / 2) ^ 2 +
            cos (lat1 * π / 180) * cos (lat2 * π / 180) *
              sin (((lon2 - lon1) * π / 180) / 2) ^ 2))) ∧
      calculateDistance realMath lat1 lon1 lat2 lon2 =
        6371 * arccos (sin (lat1 * π / 180) * sin (lat2 * π / 180) +
          cos (lat1 * π / 180) * cos (lat2 * π / 180) * cos ((lon2 - lon1) * π / 180)) := by
  constructor
  · rw [calculateDistance_realMath, a_realMath]
    ring
  · obtain ⟨h0, h1, hcos⟩ := angle_spec lat1 lon1 lat2 lon2
    obtain ⟨_, ha1⟩ := a_mem_unit lat1 lon1 lat2 lon2
    rw [calculateDistance_realMath, ← one_sub_two_a]
    have hdouble : cos (2 * realAtan2 (√(calculateDistance.a realMath lat1 lon1 lat2 lon2))
        (√(1 - calculateDistance.a realMath lat1 lon1 lat2 lon2))) =
        1 - 2 * calculateDistance.a realMath lat1 lon1 lat2 lon2 := by
      rw [cos_two_mul, hcos, Real.sq_sqrt (by linarith)]
      ring
    rw [← hdouble, arccos_cos (by linarith) (by linarith)]

/-- C2: over the real numbers `calculateDistance` is symmetric in its two points. -/
theorem calculateDistance_symm (lat1 lon1 lat2 lon2 : ℝ) :
    calculateDistance realMath lat1 lon1 lat2 lon2 =
      calculateDistance realMath lat2 lon2 lat1 lon1 := by
  have ha : calculateDistance.a realMath lat1 lon1 lat2 lon2 =
      calculateDistance.a realMath lat2 lon2 lat1 lon1 := by
    rw [a_realMath, a_realMath, sin_half_sq, sin_half_sq, sin_half_sq, sin_half_sq]
    rw [show (lat1 - lat2) * π / 180 = -((lat2 - lat1) * π / 180) by ring,
      show (lon1 - lon2) * π / 180 = -((lon2 - lon1) * π / 180) by ring, cos_neg, cos_neg]
    ring
  rw [calculateDistance_realMath, calculateDistance_realMath, ha]

/-- C3: over the real numbers the distance from a point to itself is zero. -/
theorem calculateDistance_self (lat lon : ℝ) :
    calculateDistance realMath lat lon lat lon = 0 := by
  have ha : calculateDistance.a realMath lat lon lat lon = 0 := by
    rw [a_realMath]
    simp
  rw [calculateDistance_realMath, ha]
  simp [realAtan2]

end DistanceClaims

/-! ## The view state: the claims -/

section StateClaims

variable {α : Type} [Field α]

/-- C4, as the claim states it, fails: after a position has been received, a marker click
followed by the close icon leaves `distance` holding the string computed for the click. -/
theorem handleCloseDetails_keeps_distance :
    (run realRuntime [.positionReceived { latitude := 24.7, longitude := 46.7 },
        .markerClick riyadh, .closeDetails]).distance =
        some (realToFixed (calculateDistance realMath 24.7 46.7 24.7136 46.6753) 2) ∧
      (run realRuntime [.positionReceived { latitude := 24.7, longitude := 46.7 },
        .markerClick riyadh, .closeDetails]).distance ≠ none :=
  ⟨rfl, fun h => by cases h⟩

/-- C4, amended: `handleCloseDetails`, applied to the state a `handleMarkerClick` leaves on a
reachable view state, gives a state with `selectedLocation` empty and `isDetailsOpen` false,
while `currentLocation` and `distance` are unchanged; `distance` is then empty exactly when no
current location had been received before the click, and otherwise it is the two-decimal
string of `calculateDistance` from that current location to the position of the clicked
location. -/
theorem handleCloseDetails_after_markerClick (M : JSRuntime α) (actions : List (Action α))
    (p : Location α) :
    (handleCloseDetails (handleMarkerClick M (run M actions) p)).selectedLocation = none ∧
      (handleCloseDetails (handleMarkerClick M (run M actions) p)).isDetailsOpen = false ∧
      (handleCloseDetails (handleMarkerClick M (run M actions) p)).currentLocation =
        (run M actions).currentLocation ∧
      (handleCloseDetails (handleMarkerClick M (run M actions) p)).distance =
        (handleMarkerClick M (run M actions) p).distance ∧
      ((handleCloseDetails (handleMarkerClick M (run M actions) p)).distance = none ↔
        (run M actions).currentLocation = none) ∧
      (handleCloseDetails (handleMarkerClick M (run M actions) p)).distance =
        (run M actions).currentLocation.map fun cur =>
          M.toFixed (calculateDistance M.toJSMath cur.lat cur.lng
            p.position.lat p.position.lng) 2 := by
  obtain ⟨hd, _⟩ := inv_run M actions
  generalize run M actions = s at hd ⊢
  unfold handleMarkerClick handleCloseDetails
  cases hc : s.currentLocation with
  | none =>
      cases hdist : s.distance with
      | none => exact ⟨rfl, rfl, rfl, rfl, by simp [hdist], by simp [hdist]⟩
      | some d =>
          have := hd (by rw [hdist]; rfl)
          rw [hc] at this
          cases this
  | some cur => exact ⟨rfl, rfl, rfl, rfl, by simp, rfl⟩

/-- C5, as the claim states it, fails in both directions: after a position, a marker click and
the close icon `distance` is present and `selectedLocation` is not; after a marker click and
then a position both `selectedLocation` and `currentLocation` are present and `distance` is
not. -/
theorem distance_iff_fails :
    ¬ ((run realRuntime [.positionReceived { latitude := 24.7, longitude := 46.7 },
          .markerClick riyadh, .closeDetails]).distance.isSome = true ↔
        ((run realRuntime [.positionReceived { latitude := 24.7, longitude := 46.7 },
          .markerClick riyadh, .closeDetails]).selectedLocation.isSome = true ∧
         (run realRuntime [.positionReceived { latitude := 24.7, longitude := 46.7 },
          .markerClick riyadh, .closeDetails]).currentLocation.isSome = true)) ∧
      ¬ ((run realRuntime [.markerClick riyadh,
          .positionReceived { latitude := 24.7, longitude := 46.7 }]).distance.isSome = true ↔
        ((run realRuntime [.markerClick riyadh,
          .positionReceived { latitude := 24.7, longitude := 46.7 }]).selectedLocation.isSome
            = true ∧
         (run realRuntime [.markerClick riyadh,
          .positionReceived { latitude := 24.7, longitude := 46.7 }]).currentLocation.isSome
            = true)) := by
  constructor
  · intro h
    have h1 := (h.mp rfl).1
    cases h1
  · intro h
    have h1 := h.mpr ⟨rfl, rfl⟩
    cases h1

/-- C5, amended: in every view state reachable from the initial state by marker clicks, clicks
on the close icon and received positions, `distance` is present only if `currentLocation` is
present. -/
theorem distance_needs_currentLocation (M : JSRuntime α) (actions : List (Action α))
    (h : (run M actions).distance.isSome = true) :
    (run M actions).currentLocation.isSome = true :=
  (inv_run M actions).1 h

/-- C5, amended, at a state with a distance: a received position followed by a marker
click. -/
theorem distance_needs_currentLocation_witness :
    (run realRuntime [.positionReceived { latitude := 24.7, longitude := 46.7 },
        .markerClick riyadh]).distance.isSome = true ∧
      (run realRuntime [.positionReceived { latitude := 24.7, longitude := 46.7 },
        .markerClick riyadh]).currentLocation.isSome = true :=
  ⟨rfl, distance_needs_currentLocation realRuntime
    [.positionReceived { latitude := 24.7, longitude := 46.7 }, .markerClick riyadh] rfl⟩

/-- C6, as the claim states it, fails: a marker click followed by a received position leaves
`distance` empty, not the distance from the position to the clicked location. -/
theorem positionReceived_keeps_distance_empty :
    (run realRuntime [.markerClick riyadh,
        .positionReceived { latitude := 24.7, longitude := 46.7 }]).distance = none ∧
      (run realRuntime [.markerClick riyadh,
        .positionReceived { latitude := 24.7, longitude := 46.7 }]).distance ≠
        some (realToFixed (calculateDistance realMath 24.7 46.7 24.7136 46.6753) 2) :=
  ⟨rfl, fun h => by cases h⟩

/-- C6, amended: from the initial state, a marker click on `p` followed by a received position
`loc` stores `p` and `loc`, keeps the details open and leaves `distance` empty; the next
marker click on `p` stores the distance computed from `loc` to the position of `p`, in two
decimals. -/
theorem markerClick_then_positionReceived (M : JSRuntime α) (p : Location α)
    (loc : Coords α) :
    (run M [.markerClick p, .positionReceived loc]).selectedLocation = some p ∧
      (run M [.markerClick p, .positionReceived loc]).currentLocation =
        some { lat := loc.latitude, lng := loc.longitude } ∧
      (run M [.markerClick p, .positionReceived loc]).isDetailsOpen = true ∧
      (run M [.markerClick p, .positionReceived loc]).distance = none ∧
      (run M [.markerClick p, .positionReceived loc, .markerClick p]).distance =
        some (M.toFixed (calculateDistance M.toJSMath loc.latitude loc.longitude
          p.position.lat p.position.lng) 2) :=
  ⟨rfl, rfl, rfl, rfl, rfl⟩

/-- C7: from the initial state, a received position `L` followed by marker clicks on `P1` and
then `P2` ends with `P2` selected and `distance` holding the two-decimal form of
`calculateDistance` from `L` to the position of `P2`; the final state is the one reached
without the click on `P1`. -/
theorem markerClick_twice (M : JSRuntime α) (L : Coords α) (P1 P2 : Location α) :
    (run M [.positionReceived L, .markerClick P1, .markerClick P2]).selectedLocation =
        some P2 ∧
      (run M [.positionReceived L, .markerClick P1, .markerClick P2]).distance =
        some (M.toFixed (calculateDistance M.toJSMath L.latitude L.longitude
          P2.position.lat P2.position.lng) 2) ∧
      run M [.positionReceived L, .markerClick P1, .markerClick P2] =
        run M [.positionReceived L, .markerClick P2] :=
  ⟨rfl, rfl, rfl⟩

/-- C8: in a reachable view state with `currentLocation` empty, `handleMarkerClick(p)` gives a
state with `selectedLocation = p`, `isDetailsOpen` true and `distance` empty. -/
theorem markerClick_without_currentLocation (M : JSRuntime α) (actions : List (Action α))
    (p : Location α) (h : (run M actions).currentLocation = none) :
    (handleMarkerClick M (run M actions) p).selectedLocation = some p ∧
      (handleMarkerClick M (run M actions) p).isDetailsOpen = true ∧
      (handleMarkerClick M (run M actions) p).distance = none := by
  obtain ⟨hd, _⟩ := inv_run M actions
  generalize run M actions = s at hd h ⊢
  unfold handleMarkerClick
  rw [h]
  refine ⟨rfl, rfl, ?_⟩
  cases hdist : s.distance with
  | none => rfl
  | some d =>
      have := hd (by rw [hdist]; rfl)
      rw [h] at this
      cases this

/-- C8 at a state without a current location: a marker click, the close icon, then a click
on the second location. -/
theorem markerClick_without_currentLocation_witness :
    (run realRuntime [.markerClick riyadh, .closeDetails]).currentLocation = none ∧
      (handleMarkerClick realRuntime (run realRuntime [.markerClick riyadh, .closeDetails])
        location2).selectedLocation = some location2 ∧
      (handleMarkerClick realRuntime (run realRuntime [.markerClick riyadh, .closeDetails])
        location2).isDetailsOpen = true ∧
      (handleMarkerClick realRuntime (run realRuntime [.markerClick riyadh, .closeDetails])
        location2).distance = none :=
  ⟨rfl, markerClick_without_currentLocation realRuntime [.markerClick riyadh, .closeDetails]
    location2 rfl⟩

/-- C9: in every view state reachable from the initial state by marker clicks, clicks on the
close icon and received positions, `isDetailsOpen` being true implies that `selectedLocation`
is present. -/
theorem isDetailsOpen_selectedLocation (M : JSRuntime α) (actions : List (Action α))
    (h : (run M actions).isDetailsOpen = true) :
    ∃ location, (run M actions).selectedLocation = some location := by
  have h2 := (inv_run M actions).2
  rw [h2] at h
  exact Option.isSome_iff_exists.mp h

/-- C9 at a state with the details open: a marker click followed by a received position. -/
theorem isDetailsOpen_selectedLocation_witness :
    (run realRuntime [.markerClick riyadh,
        .positionReceived { latitude := 24.7, longitude := 46.7 }]).isDetailsOpen = true ∧
      ∃ location, (run realRuntime [.markerClick riyadh,
        .positionReceived { latitude := 24.7, longitude := 46.7 }]).selectedLocation =
          some location :=
  ⟨rfl, isDetailsOpen_selectedLocation realRuntime
    [.markerClick riyadh, .positionReceived { latitude := 24.7, longitude := 46.7 }] rfl⟩

end StateClaims

end MapJsx
